import Mathlib

/-!
Shallow embedding of the persistence store of the notebook application,
document-ingestion pipeline and summarizer client
(`src/lib/storage.ts`, `src/lib/file-processor.ts`, `src/lib/gemini-ai.ts`,
and the upload flow in `src/components/source-upload-modal.tsx`).

Modelling conventions:
* JS strings are Lean `String`s; `String.length` stands for the JS
  `.length` (UTF-16 code-unit count — they agree on BMP text, which is all
  that occurs here).
* `Date.now()` results and generated ids are explicit parameters: the
  clock and the random generator are environment inputs.
* The remote Gemini call is an oracle `String → RemoteOutcome` from the
  prompt that is actually sent; `JSON.parse` of the model reply is part
  of the oracle (`ParsedSummary` is the parsed object, `none` when parsing
  throws).  JSON fields are modelled at their declared string/array types.
* JS numbers that can be non-integral (`content.length / 5`, confidence
  heuristics) are rationals.
* Promise rejection / thrown exceptions are `Except String`.
-/

namespace NotebookApp

/-! ## String helpers (JS regex / method semantics) -/

/-- JS `\w`: ASCII letters, digits and underscore. -/
def isWordChar (c : Char) : Bool := c.isAlphanum || c = '_'

/-- JS `\s` (the whitespace characters occurring in practice here). -/
def isJsSpace (c : Char) : Bool :=
  c = ' ' || c = '\t' || c = '\n' || c = '\r' || c = '\x0b' || c = '\x0c'

/-- Hangul compatibility consonant range ㄱ-ㅎ. -/
def isHangulConsonant (c : Char) : Bool := decide (0x3131 ≤ c.toNat ∧ c.toNat ≤ 0x314E)

/-- Hangul compatibility vowel range ㅏ-ㅣ. -/
def isHangulVowel (c : Char) : Bool := decide (0x314F ≤ c.toNat ∧ c.toNat ≤ 0x3163)

/-- Hangul syllable range 가-힣. -/
def isHangulSyllable (c : Char) : Bool := decide (0xAC00 ≤ c.toNat ∧ c.toNat ≤ 0xD7A3)

/-- The test `/[ㄱ-ㅎ|ㅏ-ㅣ|가-힣]/.test(content)` — the character class
also literally contains `|`. -/
def hasKoreanChar (s : String) : Bool :=
  s.data.any fun c =>
    isHangulConsonant c || isHangulVowel c || isHangulSyllable c || c = '|'

/-- Language label: 한국어 when the Korean character class matches, else 영어. -/
def detectLanguage (s : String) : String :=
  if hasKoreanChar s then "한국어" else "영어"

/-- Does `pat` occur at the head of `s`? -/
def startsWithList : List Char → List Char → Bool
  | _, [] => true
  | [], _ :: _ => false
  | a :: as, b :: bs => a == b && startsWithList as bs

/-- Does `pat` occur as a contiguous sublist of `s`?  (JS `String.prototype.includes`). -/
def containsSublist : List Char → List Char → Bool
  | [], pat => pat.isEmpty
  | s@(_ :: rest), pat => startsWithList s pat || containsSublist rest pat

/-- JS `s.includes(pat)`. -/
def strContains (s pat : String) : Bool := containsSublist s.data pat.data

/-- JS `s.trim()` (strip whitespace from both ends). -/
def jsTrim (s : String) : String :=
  String.mk (((s.data.dropWhile isJsSpace).reverse.dropWhile isJsSpace).reverse)

/-- JS `s.substring(0, n)`. -/
def jsTake (s : String) (n : Nat) : String := String.mk (s.data.take n)

/-- JS `s.toLowerCase()` (ASCII range, which is all that occurs here). -/
def jsToLower (s : String) : String := String.mk (s.data.map Char.toLower)

/-- JS `s.startsWith(pat)`. -/
def jsStartsWith (s pat : String) : Bool := startsWithList s.data pat.data

/-- JS `s.endsWith(pat)`. -/
def jsEndsWith (s pat : String) : Bool := startsWithList s.data.reverse pat.data.reverse

/-- Accumulator for `split('\n')`. -/
def splitNewlineAux : List Char → List Char → List String
  | [], acc => [String.mk acc.reverse]
  | c :: rest, acc =>
    if c = '\n' then String.mk acc.reverse :: splitNewlineAux rest []
    else splitNewlineAux rest (c :: acc)

/-- JS `s.split('\n')`. -/
def jsSplitNewline (s : String) : List String := splitNewlineAux s.data []

/-- Sanitizer for the regex class `[^\w\s가-힣.,!?]` — keep only word chars, whitespace,
Hangul syllables and `.,!?`. -/
def sanitizeSummaryText (s : String) : String :=
  String.mk (s.data.filter fun c =>
    isWordChar c || isJsSpace c || isHangulSyllable c ||
    c = '.' || c = ',' || c = '!' || c = '?')

/-- Sanitizer for the regex class `[^\w\s가-힣.,!?-]` — as above but also keeping `-`. -/
def sanitizeKeyPointText (s : String) : String :=
  String.mk (s.data.filter fun c =>
    isWordChar c || isJsSpace c || isHangulSyllable c ||
    c = '.' || c = ',' || c = '!' || c = '?' || c = '-')

/-! ## Summarizer Client data model (`gemini-ai.ts`) -/

/-- Interface `SourceSummary`.  `wordCount` is a JS number (possibly
non-integral in `file-processor.ts`), hence `ℚ`. -/
structure SourceSummary where
  sourceId : String
  fileName : String
  summary : String
  keyPoints : List String
  wordCount : ℚ
  language : String
deriving Repr, DecidableEq

/-- Interface `ChatResponse`. -/
structure ChatResponse where
  content : String
  sources : List String
  confidence : ℚ
deriving Repr, DecidableEq

/-- The JS object produced by a *successful* `JSON.parse` of the model
reply, restricted to the fields the code reads.  `none` models an absent
field; a present field is modelled at its declared type (`summary` /
`language` strings, `keyPoints` an array — `Array.isArray` succeeds
precisely when the field is `some`, `estimatedWords` a number). -/
structure ParsedSummary where
  summary : Option String
  keyPoints : Option (List String)
  estimatedWords : Option Int
  language : Option String
deriving Repr, DecidableEq

/-- Outcome of one `model.generateContent` round trip for summarization:
either the awaited call threw (`fail` carries `error.message`), or it
returned response text together with the result of `JSON.parse` on the
extracted JSON fragment (`none` when parsing throws). -/
inductive RemoteOutcome where
  | fail (errMsg : String)
  | ok (text : String) (parsed : Option ParsedSummary)
deriving Repr, DecidableEq

/-- The error-classification in the catch block of `generateSourceSummary`. -/
def classifyError (msg : String) : String :=
  if strContains msg "API_KEY" then "AI API 키 설정을 확인해주세요."
  else if strContains msg "quota" || strContains msg "limit" then
    "AI API 사용량 한도를 초과했습니다."
  else if strContains msg "safety" then
    "AI 안전성 필터에 의해 요약이 차단되었습니다."
  else "AI 요약 생성 중 오류가 발생했습니다."

/-- The fallback Summary built in the catch block of `generateSourceSummary`. -/
def failSummary (sourceId fileName content errorMessage : String) : SourceSummary :=
  { sourceId := sourceId
    fileName := fileName
    summary := errorMessage
    keyPoints := ["오류로 인해 요약을 생성할 수 없습니다"]
    wordCount := ((content.length / 5 : ℕ) : ℚ)
    language := detectLanguage content }

/-- Content truncation before prompting: over 10000 chars is cut and marked. -/
def truncatedContent (content : String) : String :=
  if content.length > 10000 then jsTake content 10000 ++ "...(내용 일부 생략)" else content

/-- The summarization prompt sent to the model (literal braces written as
their code points). -/
def summaryPrompt (fileName content : String) : String :=
  "다음 문서를 분석하고 요약해주세요:\n\n문서명: " ++ fileName ++
  "\n내용: " ++ truncatedContent content ++
  "\n\n다음 형식으로 정확히 응답해주세요:\n\x7b\n  \"summary\": \"문서의 핵심 내용을 2-3 문장으로 요약\",\n  \"keyPoints\": [\"주요 포인트 1\", \"주요 포인트 2\", \"주요 포인트 3\"],\n  \"language\": \"한국어\",\n  \"estimatedWords\": " ++
  toString (content.length / 5) ++
  "\n\x7d\n\n중요: 반드시 유효한 JSON 형식으로만 응답해주세요."

/-- Non-empty lines of the reply (`text.split('\n').filter(line => line.trim())`). -/
def replyLines (text : String) : List String :=
  (jsSplitNewline text).filter fun line => jsTrim line ≠ ""

/-- The heuristic line-based extraction used when `JSON.parse` fails. -/
def heuristicSummary (sourceId fileName content text : String) : SourceSummary :=
  let lines := replyLines text
  let found :=
    match lines.find? (fun line => strContains line "요약" || strContains line "summary") with
    | some line => jsTrim (sanitizeSummaryText line)
    | none => ""
  let summary := if found = "" then jsTrim (sanitizeSummaryText (jsTake text 200)) else found
  let keyPoints :=
    ((lines.filter fun line =>
        strContains line "-" || strContains line "•" || strContains line "포인트").map
      fun line => jsTrim (sanitizeKeyPointText line)).take 3
  { sourceId := sourceId
    fileName := fileName
    summary := if summary = "" then "AI가 요약을 생성했지만 형식을 파싱할 수 없습니다." else summary
    keyPoints := if keyPoints.isEmpty then ["키포인트를 추출할 수 없습니다"] else keyPoints
    wordCount := ((content.length / 5 : ℕ) : ℚ)
    language := detectLanguage content }

/-- The Summary built from a successfully parsed JSON reply; JS `||`
falls through on the empty string. -/
def parsedSummaryResult (sourceId fileName content : String) (p : ParsedSummary) :
    SourceSummary :=
  { sourceId := sourceId
    fileName := fileName
    summary :=
      match p.summary with
      | some s => if s = "" then "요약을 생성했지만 내용을 파싱할 수 없습니다." else s
      | none => "요약을 생성했지만 내용을 파싱할 수 없습니다."
    keyPoints :=
      match p.keyPoints with
      | some l => l
      | none => ["주요 포인트를 추출할 수 없습니다"]
    wordCount :=
      match p.estimatedWords with
      | some n => (n : ℚ)
      | none => ((content.length / 5 : ℕ) : ℚ)
    language :=
      match p.language with
      | some lg => if lg = "" then detectLanguage content else lg
      | none => detectLanguage content }

/-- Model of `generateSourceSummary(fileName, content)`.  `sourceId` is the id the
function mints from the clock/random source; `remote` is the Gemini call
viewed as an oracle from the prompt actually sent.  The function is total:
every failure path of the source is an explicit branch here. -/
def generateSourceSummary (fileName content sourceId : String)
    (remote : String → RemoteOutcome) : SourceSummary :=
  if (jsTrim content).length < 50 then
    { sourceId := sourceId
      fileName := fileName
      summary := "문서 내용이 너무 짧아서 요약할 수 없습니다."
      keyPoints := ["문서 내용 부족"]
      wordCount := (content.length : ℚ)
      language := detectLanguage content }
  else
    match remote (summaryPrompt fileName content) with
    | RemoteOutcome.fail msg => failSummary sourceId fileName content (classifyError msg)
    | RemoteOutcome.ok text parsed =>
      if (jsTrim text).length = 0 then
        -- the source throws the error `AI 응답이 비어있습니다.` here; the outer catch classifies it
        failSummary sourceId fileName content (classifyError "AI 응답이 비어있습니다.")
      else
        match parsed with
        | some p => parsedSummaryResult sourceId fileName content p
        | none => heuristicSummary sourceId fileName content text

/-- Remote round trip of `generateChatResponse`: the awaited call either
threw or produced the response text. -/
inductive ChatRemoteOutcome where
  | fail (errMsg : String)
  | ok (text : String)
deriving Repr, DecidableEq

/-- One entry of the `sources` argument of `generateChatResponse`. -/
structure ChatSource where
  name : String
  content : String
  summary : Option String
deriving Repr, DecidableEq

/-- One entry of the `chatHistory` argument (`role` is user or assistant). -/
structure HistoryMessage where
  isUserRole : Bool
  content : String
deriving Repr, DecidableEq

/-- The chat prompt: source context block, last six history turns, query. -/
def chatPrompt (userQuery : String) (sources : List ChatSource)
    (chatHistory : List HistoryMessage) : String :=
  let sourceContext :=
    String.join ((sources.enum.map fun p =>
      "[소스 " ++ toString (p.1 + 1) ++ ": " ++ p.2.name ++ "]\n" ++ p.2.content ++ "\n\n"))
  let chatHistoryText :=
    String.intercalate "\n"
      ((chatHistory.drop (chatHistory.length - 6)).map fun msg =>
        (if msg.isUserRole then "사용자" else "AI") ++ ": " ++ msg.content)
  "\n당신은 업로드된 문서들을 기반으로 정확하고 유용한 답변을 제공하는 AI 어시스턴트입니다.\n\n업로드된 소스 문서들:\n" ++
  sourceContext ++ "\n\n이전 대화 내역:\n" ++ chatHistoryText ++
  "\n\n사용자 질문: " ++ userQuery ++
  "\n\n다음 지침을 따라 답변해주세요:\n1. 반드시 제공된 소스 문서의 내용만을 기반으로 답변하세요\n2. 소스에 없는 정보는 추측하지 마세요\n3. 어떤 소스에서 정보를 가져왔는지 명시하세요\n4. 답변은 구조적이고 이해하기 쉽게 작성하세요\n5. 불확실한 부분이 있다면 명시하세요\n\n응답 형식:\n## 답변\n\n[여기에 상세한 답변을 작성하세요]\n\n## 참조 소스\n- [소스명]: [해당 정보]\n\n## 신뢰도\n[높음/보통/낮음] - [이유]\n"

/-- Model of `generateChatResponse(userQuery, sources, chatHistory)`. -/
def generateChatResponse (userQuery : String) (sources : List ChatSource)
    (chatHistory : List HistoryMessage)
    (remote : String → ChatRemoteOutcome) : ChatResponse :=
  match remote (chatPrompt userQuery sources chatHistory) with
  | ChatRemoteOutcome.fail _ =>
    { content := "죄송합니다. AI 응답 생성 중 오류가 발생했습니다. 잠시 후 다시 시도해주세요."
      sources := []
      confidence := 0 }
  | ChatRemoteOutcome.ok content =>
    let referencedSources :=
      (sources.filter fun source => strContains content source.name).map fun source => source.name
    let confidence : ℚ :=
      if strContains content "불확실" || strContains content "추측" then 1/2
      else if referencedSources.length > 1 then 9/10
      else 4/5
    { content := content
      sources := referencedSources
      confidence := confidence }

/-! ## Text Extractor / Ingestion pipeline data model (`file-processor.ts`) -/

/-- Interface `ProcessedFile` (field order as declared in the source). -/
structure ProcessedFile where
  name : String
  type : String
  size : Nat
  content : String
  lastModified : Int
  id : String
  summary : Option SourceSummary
  isProcessing : Option Bool
deriving Repr, DecidableEq

/-- Interface `FileProcessingResult`. -/
structure FileProcessingResult where
  success : Bool
  file : Option ProcessedFile
  error : Option String
deriving Repr, DecidableEq

/-- The `File` handle handed to `processFile` (§6 ingestion input). -/
structure JsFile where
  name : String
  type : String
  size : Nat
  lastModified : Int
deriving Repr, DecidableEq

/-- Environment for the extraction helpers: outcomes of `file.arrayBuffer()`
(pdf path), `mammoth.extractRawText` (docx) and `file.text()` (plain text),
each either a value or a thrown error message. -/
structure ExtractEnv where
  pdfArrayBuffer : Except String Unit
  docx : Except String String
  text : Except String String
deriving Repr

/-- Model of `extractPdfText`: awaits `arrayBuffer()` then returns the placeholder
notice (the extraction itself is a documented stub). -/
def extractPdfText (env : ExtractEnv) (file : JsFile) : Except String String :=
  match env.pdfArrayBuffer with
  | Except.error e => Except.error ("PDF 처리 중 오류 발생: " ++ e)
  | Except.ok _ =>
    Except.ok ("PDF 파일이 업로드되었습니다: " ++ file.name ++
      "\n\n[PDF 텍스트 추출 기능은 서버 사이드에서 구현됩니다. 현재는 데모 모드입니다.]")

/-- Model of `extractDocxText` via mammoth. -/
def extractDocxText (env : ExtractEnv) : Except String String :=
  match env.docx with
  | Except.error e => Except.error ("DOCX 처리 중 오류 발생: " ++ e)
  | Except.ok v => Except.ok v

/-- Model of `extractTextFileContent`, that is JS `file.text()`. -/
def extractTextFileContent (env : ExtractEnv) : Except String String :=
  match env.text with
  | Except.error e => Except.error ("텍스트 파일 처리 중 오류 발생: " ++ e)
  | Except.ok v => Except.ok v

/-- Model of `extractHwpxText`: placeholder notice. -/
def extractHwpxText (file : JsFile) : Except String String :=
  Except.ok ("HWPX 파일이 업로드되었습니다: " ++ file.name ++
    "\n\n[HWPX 텍스트 추출 기능은 추후 구현 예정입니다.]")

/-- Dispatch predicates of `processFile` on the lowercased declared type
and file name, in source order. -/
def isPdfMatch (fileType fileName : String) : Bool :=
  fileType == "application/pdf" || jsEndsWith fileName ".pdf"

def isDocxMatch (fileType fileName : String) : Bool :=
  fileType == "application/vnd.openxmlformats-officedocument.wordprocessingml.document" ||
    jsEndsWith fileName ".docx"

def isHwpxMatch (fileName : String) : Bool := jsEndsWith fileName ".hwpx"

def isTextMatch (fileType fileName : String) : Bool :=
  jsStartsWith fileType "text/" || jsEndsWith fileName ".txt" ||
    jsEndsWith fileName ".md" || jsEndsWith fileName ".markdown"

/-- Model of `processFile(file)`; `id` is the value `generateFileId()` mints.  Any
thrown extraction error is caught and becomes a failure result; an
unrecognized type throws `지원되지 않는 파일 형식입니다: <name>`. -/
def processFile (env : ExtractEnv) (file : JsFile) (id : String) : FileProcessingResult :=
  let fileType := jsToLower file.type
  let fileName := jsToLower file.name
  let extracted : Except String String :=
    if isPdfMatch fileType fileName then extractPdfText env file
    else if isDocxMatch fileType fileName then extractDocxText env
    else if isHwpxMatch fileName then extractHwpxText file
    else if isTextMatch fileType fileName then extractTextFileContent env
    else Except.error ("지원되지 않는 파일 형식입니다: " ++ file.name)
  match extracted with
  | Except.ok content =>
    { success := true
      file := some
        { id := id
          name := file.name
          type := if file.type == "" then "unknown" else file.type
          size := file.size
          content := content
          lastModified := file.lastModified
          summary := none
          isProcessing := some true }
      error := none }
  | Except.error e => { success := false, file := none, error := some e }

/-- Model of `generateFileSummary(processedFile)`: short-circuit under 100 chars,
otherwise delegate to `generateSourceSummary` (which is total, so the
catch block of the source is unreachable).  `sourceId` is the id
`generateSourceSummary` mints in the non-short path. -/
def generateFileSummary (processedFile : ProcessedFile) (sourceId : String)
    (remote : String → RemoteOutcome) : ProcessedFile :=
  if processedFile.content.length < 100 then
    { processedFile with
      isProcessing := some false
      summary := some
        { sourceId := processedFile.id
          fileName := processedFile.name
          summary := "문서가 너무 짧아서 요약할 내용이 부족합니다."
          keyPoints := ["짧은 문서"]
          wordCount := (processedFile.content.length : ℚ) / 5
          language := detectLanguage processedFile.content } }
  else
    { processedFile with
      summary := some (generateSourceSummary processedFile.name processedFile.content
        sourceId remote)
      isProcessing := some false }

/-- The notebook-commit selection in `source-upload-modal.tsx`:
`uploadedFiles.filter(f => f.status === "success" && f.processedFile)`
where the status of a result is `success` exactly when processing returned
`success` with a file. -/
def successfulFiles (results : List FileProcessingResult) : List ProcessedFile :=
  results.filterMap fun r => if r.success then r.file else none

/-! ## Persistence Store (`storage.ts`) -/

/-- Interface `NotebookData`. -/
structure NotebookData where
  id : String
  title : String
  description : Option String
  sources : List ProcessedFile
  createdAt : Nat
  updatedAt : Nat
  summary : Option String
  tags : Option (List String)
deriving Repr, DecidableEq

/-- Interface `ChatMessage`. -/
structure ChatMessage where
  id : String
  content : String
  isUser : Bool
  timestamp : Nat
  sources : Option (List String)
deriving Repr, DecidableEq

/-- A file record as stored in the `files` object store: the processed
file with the owning-notebook reference stamped on (`saveFile`). -/
structure StoredFile extends ProcessedFile where
  notebookId : String
deriving Repr, DecidableEq

/-- localStorage environment: `getThrows` makes `localStorage.getItem` /
`JSON.parse` throw (caught, read as `null`); `setThrows` makes
`localStorage.setItem` throw (caught, write dropped). -/
structure LsEnv where
  getThrows : Bool
  setThrows : Bool
deriving Repr, DecidableEq

/-- Outcome of an awaited `initIndexedDB()` attempt made while `this.db`
is null: either `window.indexedDB` is absent, so the init resolves with
the db still null (the silent-empty path), or the open request fires
`onerror` and the init Promise *rejects* with the open error — a
rejection the public methods do not catch. -/
inductive InitOutcome where
  | unavailable
  | openFails (errMsg : String)
deriving Repr, DecidableEq

/-- IndexedDB environment: `init` is how `initIndexedDB()` behaves when
the db is not yet open; `reqFails` makes a request on the *open* database
fire `onerror` (the wrapping Promise then *rejects* with `errMsg`). -/
structure IdbEnv where
  init : InitOutcome
  reqFails : Bool
  errMsg : String
deriving Repr, DecidableEq

/-- The durable state of the `StorageManager` singleton.
`dbAvailable` is whether `this.db` is set.  The environment is
deterministic: a run in which the open request would succeed is modelled
with `dbAvailable = true` from the start (the constructor already opened
it), and with `dbAvailable = false` every per-operation re-init attempt
behaves per `IdbEnv.init`, so the database never becomes available in
that case.  The two object stores are keyed lists; `chatsSlot` is the
parsed value of the `notebooklm_chats` localStorage key (`none`: absent
or unparsable); `settingsSlot` is the opaque `notebooklm_settings` blob. -/
structure StorageState where
  dbAvailable : Bool
  notebooks : List NotebookData
  files : List StoredFile
  chatsSlot : Option (List (String × List ChatMessage))
  settingsSlot : Option String
deriving Repr, DecidableEq

/-- Keyed `store.put`: replace the record with the same key, else insert. -/
def putByKey (key : α → String) : List α → α → List α
  | [], x => [x]
  | y :: ys, x => if key y == key x then x :: ys else y :: putByKey key ys x

/-- JS object read `obj[k]`. -/
def assocGet : List (String × β) → String → Option β
  | [], _ => none
  | (k', v') :: rest, k => if k' == k then some v' else assocGet rest k

/-- JS object write `obj[k] = v`. -/
def assocSet : List (String × β) → String → β → List (String × β)
  | [], k, v => [(k, v)]
  | (k', v') :: rest, k, v => if k' == k then (k, v) :: rest else (k', v') :: assocSet rest k v

/-- The record `createNotebook` builds (`id` from `generateId()`, the two
timestamps from the two successive `Date.now()` reads). -/
def mkNotebook (id title : String) (description : Option String) (t1 t2 : Nat) :
    NotebookData :=
  { id := id
    title := title
    description := description
    sources := []
    createdAt := t1
    updatedAt := t2
    summary := none
    tags := some [] }

/-- The prelude of every Tier B method and IndexedDB helper:
`if (!this.db) await this.initIndexedDB();` followed by
`if (!this.db) ...`.  Resolves `true` when the db is open, `false` on the
silent-null path (IndexedDB absent), and propagates the rejection of the
open request otherwise. -/
def dbAfterInit (env : IdbEnv) (s : StorageState) : Except String Bool :=
  if s.dbAvailable then Except.ok true
  else
    match env.init with
    | InitOutcome.unavailable => Except.ok false
    | InitOutcome.openFails e => Except.error e

/-- Model of `createNotebook(title, description?)`: build the record, `put` it into
the notebooks store via `saveToIndexedDB` (silent no-op when IndexedDB is
absent; the rejection of a failing re-init or of the put request
propagates), return the record. -/
def createNotebook (env : IdbEnv) (s : StorageState) (id title : String)
    (description : Option String) (t1 t2 : Nat) :
    Except String (NotebookData × StorageState) :=
  let notebook := mkNotebook id title description t1 t2
  match dbAfterInit env s with
  | Except.error e => Except.error e
  | Except.ok false => Except.ok (notebook, s)
  | Except.ok true =>
    if env.reqFails then Except.error env.errMsg
    else Except.ok (notebook, { s with notebooks := putByKey NotebookData.id s.notebooks notebook })

/-- Model of `getNotebook(id)`. -/
def getNotebook (env : IdbEnv) (s : StorageState) (id : String) :
    Except String (Option NotebookData × StorageState) :=
  match dbAfterInit env s with
  | Except.error e => Except.error e
  | Except.ok false => Except.ok (none, s)
  | Except.ok true =>
    if env.reqFails then Except.error env.errMsg
    else Except.ok (s.notebooks.find? (fun nb => nb.id == id), s)

/-- Model of `getAllNotebooks()`: fetch all records, sort descending by
`updatedAt` (the JS comparator `(a, b) => b.updatedAt - a.updatedAt`,
stable sort). -/
def getAllNotebooks (env : IdbEnv) (s : StorageState) :
    Except String (List NotebookData × StorageState) :=
  match dbAfterInit env s with
  | Except.error e => Except.error e
  | Except.ok false => Except.ok ([], s)
  | Except.ok true =>
    if env.reqFails then Except.error env.errMsg
    else
      Except.ok (s.notebooks.mergeSort (fun a b => decide (b.updatedAt ≤ a.updatedAt)), s)

/-- Model of `updateNotebook(notebook)`: stamp `updatedAt = now`, `put`. -/
def updateNotebook (env : IdbEnv) (s : StorageState) (notebook : NotebookData)
    (tNow : Nat) : Except String StorageState :=
  let notebook := { notebook with updatedAt := tNow }
  match dbAfterInit env s with
  | Except.error e => Except.error e
  | Except.ok false => Except.ok s
  | Except.ok true =>
    if env.reqFails then Except.error env.errMsg
    else Except.ok { s with notebooks := putByKey NotebookData.id s.notebooks notebook }

/-- Model of `deleteNotebook(id)`: delete the record from the *notebooks* store
only — the files store and the chat lists are not touched. -/
def deleteNotebook (env : IdbEnv) (s : StorageState) (id : String) :
    Except String StorageState :=
  match dbAfterInit env s with
  | Except.error e => Except.error e
  | Except.ok false => Except.ok s
  | Except.ok true =>
    if env.reqFails then Except.error env.errMsg
    else Except.ok { s with notebooks := s.notebooks.filter (fun nb => !(nb.id == id)) }

/-- Model of `saveFile(file, notebookId)`: stamp the owning notebook, `put`. -/
def saveFile (env : IdbEnv) (s : StorageState) (file : ProcessedFile)
    (notebookId : String) : Except String StorageState :=
  let fileWithNotebook : StoredFile := { file with notebookId := notebookId }
  match dbAfterInit env s with
  | Except.error e => Except.error e
  | Except.ok false => Except.ok s
  | Except.ok true =>
    if env.reqFails then Except.error env.errMsg
    else Except.ok { s with files := putByKey (fun f => f.id) s.files fileWithNotebook }

/-- Model of `getFile(id)`. -/
def getFile (env : IdbEnv) (s : StorageState) (id : String) :
    Except String (Option StoredFile × StorageState) :=
  match dbAfterInit env s with
  | Except.error e => Except.error e
  | Except.ok false => Except.ok (none, s)
  | Except.ok true =>
    if env.reqFails then Except.error env.errMsg
    else Except.ok (s.files.find? (fun f => f.id == id), s)

/-- Model of `getFilesByNotebook(notebookId)`: secondary-index lookup. -/
def getFilesByNotebook (env : IdbEnv) (s : StorageState) (notebookId : String) :
    Except String (List StoredFile × StorageState) :=
  match dbAfterInit env s with
  | Except.error e => Except.error e
  | Except.ok false => Except.ok ([], s)
  | Except.ok true =>
    if env.reqFails then Except.error env.errMsg
    else Except.ok (s.files.filter (fun f => f.notebookId == notebookId), s)

/-- Model of `getChat(notebookId)`: read the whole chats record from localStorage
(`null` on any read failure), index by notebook id, default `[]`.
Never throws. -/
def getChat (env : LsEnv) (s : StorageState) (notebookId : String) :
    List ChatMessage × StorageState :=
  let chats := (if env.getThrows then none else s.chatsSlot).getD []
  ((assocGet chats notebookId).getD [], s)

/-- Model of `saveChat(notebookId, messages)`: read-modify-write of the whole
chats record; a failing write is silently dropped.  Never throws. -/
def saveChat (env : LsEnv) (s : StorageState) (notebookId : String)
    (messages : List ChatMessage) : StorageState :=
  let chats := (if env.getThrows then none else s.chatsSlot).getD []
  let chats := assocSet chats notebookId messages
  if env.setThrows then s else { s with chatsSlot := some chats }

/-- Model of `addChatMessage(notebookId, message)`: stamp id and timestamp, append
to the current list, save the whole list back, return the new message. -/
def addChatMessage (env : LsEnv) (s : StorageState) (notebookId : String)
    (content : String) (isUser : Bool) (sources : Option (List String))
    (id : String) (t : Nat) : ChatMessage × StorageState :=
  let chatMessage : ChatMessage :=
    { id := id, content := content, isUser := isUser, timestamp := t, sources := sources }
  let existingMessages := (getChat env s notebookId).1
  let s := saveChat env s notebookId (existingMessages ++ [chatMessage])
  (chatMessage, s)

/-! ## Helper lemmas -/

theorem startsWithList_refl (l : List Char) : startsWithList l l = true := by
  induction l with
  | nil => rfl
  | cons a as ih => simp [startsWithList, ih]

theorem containsSublist_append_self (pre s : List Char) :
    containsSublist (pre ++ s) s = true := by
  induction pre with
  | nil =>
    cases s with
    | nil => rfl
    | cons a as => simp [containsSublist, startsWithList_refl]
  | cons c cs ih => simp [containsSublist, ih]

theorem find?_putByKey (key : α → String) (l : List α) (x : α) :
    (putByKey key l x).find? (fun y => key y == key x) = some x := by
  induction l with
  | nil => simp [putByKey, List.find?]
  | cons y ys ih =>
    by_cases h : key y == key x
    · simp [putByKey, h, List.find?]
    · simp only [putByKey, h, if_false, Bool.false_eq_true]
      rw [List.find?]
      simp only [h, Bool.false_eq_true, if_false]
      exact ih

theorem find?_filter_not_eq (l : List NotebookData) (id : String) :
    (l.filter fun nb => !(nb.id == id)).find? (fun nb => nb.id == id) = none := by
  induction l with
  | nil => rfl
  | cons nb rest ih =>
    by_cases h : nb.id == id
    · simp only [List.filter, h, Bool.not_true]
      exact ih
    · simp only [List.filter, h, Bool.not_false]
      rw [List.find?]
      simp only [h, Bool.false_eq_true, if_false]
      exact ih

theorem assocGet_assocSet_self (l : List (String × β)) (k : String) (v : β) :
    assocGet (assocSet l k v) k = some v := by
  induction l with
  | nil => simp [assocSet, assocGet]
  | cons p rest ih =>
    by_cases h : p.1 == k
    · simp [assocSet, assocGet, h]
    · simpa [assocSet, assocGet, h] using ih

theorem assocGet_assocSet_ne (l : List (String × β)) (k m : String) (v : β)
    (h : (k == m) = false) : assocGet (assocSet l k v) m = assocGet l m := by
  induction l with
  | nil => simp [assocSet, assocGet, h]
  | cons p rest ih =>
    by_cases hp : p.1 == k
    · have hpm : (p.1 == m) = false := by
        have hk : p.1 = k := by simpa using hp
        simpa [hk] using h
      simp [assocSet, assocGet, hp, hpm, h]
    · simp only [assocSet, hp, Bool.false_eq_true, if_false]
      by_cases hm : p.1 == m
      · simp [assocGet, hm]
      · simpa [assocGet, hm] using ih

theorem classifyError_ne_empty (msg : String) : classifyError msg ≠ "" := by
  unfold classifyError
  split <;> first
    | decide
    | (split <;> first | decide | (split <;> decide))

/-! ## Concrete fixtures used by witnesses and counterexamples -/

/-- An IndexedDB environment whose requests succeed. -/
def idbOk : IdbEnv :=
  { init := InitOutcome.unavailable, reqFails := false, errMsg := "err" }

/-- A helper equation: with the database already open, the re-init
prelude resolves immediately. -/
theorem dbAfterInit_available (env : IdbEnv) (s : StorageState)
    (hdb : s.dbAvailable = true) : dbAfterInit env s = Except.ok true := by
  simp [dbAfterInit, hdb]

/-- A localStorage environment whose reads and writes succeed. -/
def lsOk : LsEnv := { getThrows := false, setThrows := false }

/-- A fresh store: database opened, both object stores empty, no
localStorage blobs yet. -/
def freshState : StorageState :=
  { dbAvailable := true, notebooks := [], files := [], chatsSlot := none,
    settingsSlot := none }

/-- A processed 50-character plain-text file (the §8 `note.txt` scenario). -/
def note50 : ProcessedFile :=
  { name := "note.txt"
    type := "text/plain"
    size := 50
    content := "This is a fifty character plain text file content!"
    lastModified := 0
    id := "file_1"
    summary := none
    isProcessing := some true }

/-! ## Claim theorems -/

/-- C3: for every processed file whose extracted content is shorter than
100 characters, `generateFileSummary` returns the canned short-content
summary — the fixed too-short message with the single key point
`짧은 문서` — and the result does not depend on the remote oracle at all
(no remote call is issued). -/
theorem generateFileSummary_short_circuit (processedFile : ProcessedFile)
    (sourceId : String) (remote : String → RemoteOutcome)
    (h : processedFile.content.length < 100) :
    generateFileSummary processedFile sourceId remote =
      { processedFile with
        isProcessing := some false
        summary := some
          { sourceId := processedFile.id
            fileName := processedFile.name
            summary := "문서가 너무 짧아서 요약할 내용이 부족합니다."
            keyPoints := ["짧은 문서"]
            wordCount := (processedFile.content.length : ℚ) / 5
            language := detectLanguage processedFile.content } } := by
  simp [generateFileSummary, h]

/-- Witness for C3: the 50-character `note.txt` short-circuits even with
the remote service down, and the canned Summary evaluates to the fixed
message, `["짧은 문서"]`, word count 10 and language `영어`. -/
theorem generateFileSummary_short_circuit_witness :
    generateFileSummary note50 "src_1" (fun _ => RemoteOutcome.fail "down") =
      { note50 with
        isProcessing := some false
        summary := some
          { sourceId := "file_1"
            fileName := "note.txt"
            summary := "문서가 너무 짧아서 요약할 내용이 부족합니다."
            keyPoints := ["짧은 문서"]
            wordCount := 10
            language := "영어" } } := by
  rw [generateFileSummary_short_circuit note50 "src_1" (fun _ => RemoteOutcome.fail "down")
    (by decide)]
  have hlen : note50.content.length = 50 := by decide
  have hlang : detectLanguage note50.content = "영어" := by decide
  rw [hlen, hlang]
  norm_num
  exact ⟨rfl, rfl⟩

/-- C4: `createNotebook` returns a record with the requested title and
description, the supplied fresh id, an empty source list, both timestamps
from the two clock reads (so `updatedAt ≥ createdAt` under clock
monotonicity), and persists it: a subsequent `getNotebook` on the
returned id yields the identical record. -/
theorem createNotebook_roundtrip (env : IdbEnv) (s : StorageState)
    (id title : String) (description : Option String) (t1 t2 : Nat)
    (hdb : s.dbAvailable = true) (hreq : env.reqFails = false) (ht : t1 ≤ t2) :
    ∃ nb s',
      createNotebook env s id title description t1 t2 = Except.ok (nb, s') ∧
      nb.id = id ∧ nb.title = title ∧ nb.description = description ∧
      nb.sources = [] ∧ nb.createdAt = t1 ∧ nb.updatedAt = t2 ∧
      nb.createdAt ≤ nb.updatedAt ∧
      getNotebook env s' id = Except.ok (some nb, s') := by
  refine ⟨mkNotebook id title description t1 t2,
    { s with notebooks := putByKey NotebookData.id s.notebooks (mkNotebook id title description t1 t2) },
    ?_, rfl, rfl, rfl, rfl, rfl, rfl, ht, ?_⟩
  · simp [createNotebook, dbAfterInit_available env s hdb, hreq]
  · have hdb' : ({ s with notebooks := putByKey NotebookData.id s.notebooks (mkNotebook id title description t1 t2) } : StorageState).dbAvailable = true := hdb
    simp only [getNotebook, dbAfterInit_available _ _ hdb', hreq, Bool.false_eq_true,
      if_false]
    exact congrArg (fun r => Except.ok (r, _))
      (find?_putByKey NotebookData.id s.notebooks (mkNotebook id title description t1 t2))

/-- Witness for C4 at a concrete input: creating `My Notebook` in a fresh
store at times 5 and 7 round-trips through `getNotebook`. -/
theorem createNotebook_roundtrip_witness :
    ∃ nb s',
      createNotebook idbOk freshState "nb_1" "My Notebook" none 5 7 =
        Except.ok (nb, s') ∧
      nb.id = "nb_1" ∧ nb.title = "My Notebook" ∧ nb.description = none ∧
      nb.sources = [] ∧ nb.createdAt = 5 ∧ nb.updatedAt = 7 ∧
      nb.createdAt ≤ nb.updatedAt ∧
      getNotebook idbOk s' "nb_1" = Except.ok (some nb, s') :=
  createNotebook_roundtrip idbOk freshState "nb_1" "My Notebook" none 5 7 rfl rfl
    (by decide)

/-- C8: whenever the remote call of `generateChatResponse` fails, the
function returns — without throwing — the fixed apologetic message with
an empty referenced-source list and confidence 0. -/
theorem generateChatResponse_remote_failure (userQuery : String)
    (sources : List ChatSource) (chatHistory : List HistoryMessage)
    (remote : String → ChatRemoteOutcome) (errMsg : String)
    (h : remote (chatPrompt userQuery sources chatHistory) =
      ChatRemoteOutcome.fail errMsg) :
    generateChatResponse userQuery sources chatHistory remote =
      { content := "죄송합니다. AI 응답 생성 중 오류가 발생했습니다. 잠시 후 다시 시도해주세요."
        sources := []
        confidence := 0 } := by
  simp [generateChatResponse, h]

/-- Witness for C8: a concrete query against one source with the remote
transport failing produces exactly the apologetic result. -/
theorem generateChatResponse_remote_failure_witness :
    generateChatResponse "질문" [{ name := "a.txt", content := "내용", summary := none }]
      [] (fun _ => ChatRemoteOutcome.fail "network") =
      { content := "죄송합니다. AI 응답 생성 중 오류가 발생했습니다. 잠시 후 다시 시도해주세요."
        sources := []
        confidence := 0 } :=
  generateChatResponse_remote_failure "질문"
    [{ name := "a.txt", content := "내용", summary := none }] []
    (fun _ => ChatRemoteOutcome.fail "network") "network" rfl

/-- C9: `getAllNotebooks` returns the stored records sorted descending by
`updatedAt`, leaves the store unchanged, and calling it again without
intervening writes returns the identical ordered result. -/
theorem getAllNotebooks_sorted_idempotent (env : IdbEnv) (s : StorageState)
    (l : List NotebookData) (s' : StorageState)
    (h : getAllNotebooks env s = Except.ok (l, s')) :
    s' = s ∧
    List.Pairwise (fun a b => b.updatedAt ≤ a.updatedAt) l ∧
    getAllNotebooks env s' = Except.ok (l, s') := by
  unfold getAllNotebooks at h ⊢
  by_cases hdb : s.dbAvailable
  · rw [dbAfterInit_available env s hdb] at h
    by_cases hreq : env.reqFails
    · simp [hreq] at h
    · simp only [hreq, Bool.false_eq_true, if_false, Except.ok.injEq,
        Prod.mk.injEq] at h
      obtain ⟨hl, hs⟩ := h
      subst hs
      refine ⟨rfl, ?_, ?_⟩
      · subst hl
        have hs := @List.sorted_mergeSort NotebookData
          (fun a b => decide (b.updatedAt ≤ a.updatedAt))
          (by intro a b c hab hbc
              simp only [decide_eq_true_eq] at hab hbc ⊢
              exact le_trans hbc hab)
          (by intro a b
              simp only [Bool.or_eq_true, decide_eq_true_eq]
              exact le_total b.updatedAt a.updatedAt)
          s.notebooks
        exact hs.imp fun hab => by simpa using hab
      · rw [dbAfterInit_available env s hdb]
        simp [hreq, hl]
  · cases hinit : env.init with
    | unavailable =>
      simp only [dbAfterInit, hdb, Bool.false_eq_true, if_false, hinit,
        Except.ok.injEq, Prod.mk.injEq] at h
      obtain ⟨hl, hs⟩ := h
      subst hs; subst hl
      refine ⟨rfl, List.Pairwise.nil, ?_⟩
      simp [dbAfterInit, hdb, hinit]
    | openFails e =>
      simp [dbAfterInit, hdb, hinit] at h

/-- Witness for C9: reading a fresh store yields the empty sorted list
and reading again yields it unchanged. -/
theorem getAllNotebooks_sorted_idempotent_witness :
    freshState = freshState ∧
    List.Pairwise (fun a b : NotebookData => b.updatedAt ≤ a.updatedAt) [] ∧
    getAllNotebooks idbOk freshState = Except.ok ([], freshState) :=
  getAllNotebooks_sorted_idempotent idbOk freshState [] freshState
    (by simp [getAllNotebooks, dbAfterInit, freshState, idbOk])

/-- An if-fallback on the empty string is non-empty when the fallback is. -/
theorem ite_string_ne_empty (a F : String) (hF : F ≠ "") :
    (if a = "" then F else a) ≠ "" := by
  split
  next => exact hF
  next h => exact h

/-- An if-fallback on the empty list is non-empty. -/
theorem ite_isEmpty_ne_nil (l : List String) (F : String) :
    (if l.isEmpty then [F] else l) ≠ [] := by
  split
  next => exact List.cons_ne_nil _ _
  next h => exact fun hnil => h (by simp [hnil])

/-- Every branch of the heuristic line-based fallback extraction yields a
non-empty summary string and a non-empty key-point list. -/
theorem heuristicSummary_spec (sourceId fileName content text : String) :
    (heuristicSummary sourceId fileName content text).summary ≠ "" ∧
    (heuristicSummary sourceId fileName content text).keyPoints ≠ [] := by
  unfold heuristicSummary
  refine ⟨?_, ?_⟩ <;> dsimp only
  · exact ite_string_ne_empty _ _ (by decide)
  · exact ite_isEmpty_ne_nil _ _

/-- C1 (amended): `generateSourceSummary` is total (never throws outward)
and always returns a Summary whose `summary` field is non-empty — on
remote failure it is the classified human-readable cause; `keyPoints` has
at least one entry in every case *except* when the remote reply
strict-parses as JSON whose `keyPoints` field is an empty array, in which
case the empty array is passed through. -/
theorem generateSourceSummary_total (fileName content sourceId : String)
    (remote : String → RemoteOutcome)
    (h : ∀ text p, remote (summaryPrompt fileName content) =
      RemoteOutcome.ok text (some p) → p.keyPoints ≠ some []) :
    (generateSourceSummary fileName content sourceId remote).summary ≠ "" ∧
    (generateSourceSummary fileName content sourceId remote).keyPoints ≠ [] := by
  unfold generateSourceSummary
  split
  · constructor
    · show ("문서 내용이 너무 짧아서 요약할 수 없습니다." : String) ≠ ""
      decide
    · show (["문서 내용 부족"] : List String) ≠ []
      decide
  next hshort =>
    split
    next msg heq =>
      constructor
      · show classifyError msg ≠ ""
        exact classifyError_ne_empty msg
      · show (["오류로 인해 요약을 생성할 수 없습니다"] : List String) ≠ []
        decide
    next text parsed heq =>
      split
      next hempty =>
        constructor
        · show classifyError "AI 응답이 비어있습니다." ≠ ""
          exact classifyError_ne_empty _
        · show (["오류로 인해 요약을 생성할 수 없습니다"] : List String) ≠ []
          decide
      next hempty =>
        match parsed, heq with
        | some p, heq =>
          have hkp := h text p heq
          refine ⟨?_, ?_⟩
          · show (parsedSummaryResult sourceId fileName content p).summary ≠ ""
            unfold parsedSummaryResult
            dsimp only
            cases hps : p.summary with
            | none => decide
            | some s => exact ite_string_ne_empty s _ (by decide)
          · show (parsedSummaryResult sourceId fileName content p).keyPoints ≠ []
            unfold parsedSummaryResult
            dsimp only
            cases hps : p.keyPoints with
            | none => exact List.cons_ne_nil _ _
            | some l =>
              intro hnil
              dsimp only at hnil
              exact hkp (by rw [hps, hnil])
        | none, heq =>
          exact heuristicSummary_spec sourceId fileName content text

/-- Witness for the amended C1 theorem: with the remote transport failing,
the Summary explains the (unclassified) cause and has one key point. -/
theorem generateSourceSummary_total_witness :
    (generateSourceSummary "doc.txt" "short" "src_0"
      (fun _ => RemoteOutcome.fail "boom")).summary ≠ "" ∧
    (generateSourceSummary "doc.txt" "short" "src_0"
      (fun _ => RemoteOutcome.fail "boom")).keyPoints ≠ [] :=
  generateSourceSummary_total "doc.txt" "short" "src_0"
    (fun _ => RemoteOutcome.fail "boom") (fun _ _ hcontra => nomatch hcontra)

/-- A 60-character content, long enough to take the remote path. -/
def longContent : String := String.mk (List.replicate 60 'a')

/-- A remote reply that is valid JSON with an empty `keyPoints` array. -/
def emptyKeyPointsReply : ParsedSummary :=
  { summary := some "ok", keyPoints := some [], estimatedWords := none, language := none }

/-- Counterexample to C1 as stated: when the remote call *succeeds* and
its reply strict-parses as `\x7b"summary":"ok","keyPoints":[]\x7d`,
`generateSourceSummary` returns a Summary whose `keyPoints` list is
empty — the claimed "at least one entry" fails. -/
theorem generateSourceSummary_empty_keyPoints :
    (generateSourceSummary "doc.txt" longContent "src_2"
      (fun _ => RemoteOutcome.ok "\x7b\"summary\":\"ok\",\"keyPoints\":[]\x7d"
        (some emptyKeyPointsReply))).keyPoints = [] := by
  decide

/-- C5 (amended): two `addChatMessage` calls in sequence for the same
notebook yield `getChat` returning both messages appended after the
existing history in call order, with *non-decreasing* timestamps (the
millisecond clock is monotone but need not advance between the calls, so
strict increase is not guaranteed — see the counterexample theorem). -/
theorem addChatMessage_twice_ordered (env : LsEnv) (s : StorageState)
    (n c1 c2 id1 id2 : String) (u1 u2 : Bool)
    (r1 r2 : Option (List String)) (t1 t2 : Nat)
    (hget : env.getThrows = false) (hset : env.setThrows = false)
    (ht : t1 ≤ t2) :
    (getChat env (addChatMessage env (addChatMessage env s n c1 u1 r1 id1 t1).2
        n c2 u2 r2 id2 t2).2 n).1 =
      (getChat env s n).1 ++
        [{ id := id1, content := c1, isUser := u1, timestamp := t1, sources := r1 },
         { id := id2, content := c2, isUser := u2, timestamp := t2, sources := r2 }] ∧
    ({ id := id1, content := c1, isUser := u1, timestamp := t1,
        sources := r1 } : ChatMessage).timestamp ≤
      ({ id := id2, content := c2, isUser := u2, timestamp := t2,
          sources := r2 } : ChatMessage).timestamp := by
  refine ⟨?_, ht⟩
  simp [addChatMessage, saveChat, getChat, hget, hset, assocGet_assocSet_self]

/-- Witness for the amended C5 theorem at a concrete input: two messages
added to a fresh store at times 100 and 200 read back in call order. -/
theorem addChatMessage_twice_ordered_witness :
    (getChat lsOk (addChatMessage lsOk (addChatMessage lsOk freshState "nb_1"
        "first" true none "msg_1" 100).2 "nb_1" "second" false none "msg_2" 200).2
      "nb_1").1 =
      (getChat lsOk freshState "nb_1").1 ++
        [{ id := "msg_1", content := "first", isUser := true, timestamp := 100,
            sources := none },
         { id := "msg_2", content := "second", isUser := false, timestamp := 200,
            sources := none }] ∧
    ({ id := "msg_1", content := "first", isUser := true, timestamp := 100,
        sources := none } : ChatMessage).timestamp ≤
      ({ id := "msg_2", content := "second", isUser := false, timestamp := 200,
          sources := none } : ChatMessage).timestamp :=
  addChatMessage_twice_ordered lsOk freshState "nb_1" "first" "second" "msg_1"
    "msg_2" true false none none 100 200 rfl rfl (by decide)

/-- The two messages of the C5 counterexample: appended within the same
clock millisecond. -/
def ceMsg1 : ChatMessage :=
  { id := "msg_1", content := "first", isUser := true, timestamp := 100, sources := none }

def ceMsg2 : ChatMessage :=
  { id := "msg_2", content := "second", isUser := false, timestamp := 100, sources := none }

/-- Counterexample to C5 as stated: when the millisecond clock does not
advance between the two calls (both `Date.now()` reads return 100), the
two messages read back in call order but their timestamps are *equal*,
not strictly increasing. -/
theorem addChatMessage_equal_timestamps :
    (getChat lsOk (addChatMessage lsOk (addChatMessage lsOk freshState "nb_1"
        "first" true none "msg_1" 100).2 "nb_1" "second" false none "msg_2" 100).2
      "nb_1").1 = [ceMsg1, ceMsg2] ∧
    ¬ ceMsg1.timestamp < ceMsg2.timestamp := by
  exact ⟨by decide, by decide⟩

/-- A populated store: one notebook owning one file and a one-message chat. -/
def nbOne : NotebookData :=
  { id := "nb_1", title := "Notebook", description := none, sources := [],
    createdAt := 10, updatedAt := 10, summary := none, tags := some [] }

def sfOne : StoredFile :=
  { name := "a.txt", type := "text/plain", size := 5, content := "hello",
    lastModified := 0, id := "file_1", summary := none, isProcessing := some false,
    notebookId := "nb_1" }

def msgOne : ChatMessage :=
  { id := "msg_1", content := "hi", isUser := true, timestamp := 20, sources := none }

def popState : StorageState :=
  { dbAvailable := true, notebooks := [nbOne], files := [sfOne],
    chatsSlot := some [("nb_1", [msgOne])], settingsSlot := none }

/-- The store after deleting notebook `nb_1`: only the notebook record is
gone. -/
def popStateAfter : StorageState := { popState with notebooks := [] }

/-- Counterexample to C2 as stated: after `deleteNotebook("nb_1")`
completes, the Source File owned by the notebook is still returned by
`getFilesByNotebook` and its Chat Messages are still returned by
`getChat` — no cascade delete happens anywhere in the store. -/
theorem deleteNotebook_leaves_orphans :
    deleteNotebook idbOk popState "nb_1" = Except.ok popStateAfter ∧
    getFilesByNotebook idbOk popStateAfter "nb_1" = Except.ok ([sfOne], popStateAfter) ∧
    (getChat lsOk popStateAfter "nb_1").1 = [msgOne] :=
  ⟨rfl, rfl, rfl⟩

/-- C2 (amended): `deleteNotebook(id)` removes only the Tier B notebook
record — a subsequent `getNotebook(id)` returns null — while the file
store, the chat lists and the settings blob are left entirely unchanged;
no cascade deletion of owned Source Files or Chat Messages is performed. -/
theorem deleteNotebook_removes_only_notebook (env : IdbEnv) (s : StorageState)
    (id : String) (hdb : s.dbAvailable = true) (hreq : env.reqFails = false) :
    ∃ s', deleteNotebook env s id = Except.ok s' ∧
      getNotebook env s' id = Except.ok (none, s') ∧
      s'.files = s.files ∧ s'.chatsSlot = s.chatsSlot ∧
      s'.settingsSlot = s.settingsSlot := by
  refine ⟨{ s with notebooks := s.notebooks.filter (fun nb => !(nb.id == id)) },
    ?_, ?_, rfl, rfl, rfl⟩
  · simp [deleteNotebook, dbAfterInit_available env s hdb, hreq]
  · have hdb' : ({ s with notebooks := s.notebooks.filter (fun nb => !(nb.id == id)) } : StorageState).dbAvailable = true := hdb
    simp only [getNotebook, dbAfterInit_available _ _ hdb', hreq, Bool.false_eq_true,
      if_false]
    rw [find?_filter_not_eq]

/-- Witness for the amended C2 theorem at the populated store. -/
theorem deleteNotebook_removes_only_notebook_witness :
    ∃ s', deleteNotebook idbOk popState "nb_1" = Except.ok s' ∧
      getNotebook idbOk s' "nb_1" = Except.ok (none, s') ∧
      s'.files = popState.files ∧ s'.chatsSlot = popState.chatsSlot ∧
      s'.settingsSlot = popState.settingsSlot :=
  deleteNotebook_removes_only_notebook idbOk popState "nb_1" rfl rfl

/-- C6 (amended): with the database not open, each Tier B operation first
re-awaits `initIndexedDB()`; when IndexedDB itself is absent the re-init
resolves with the db still null and the operation resolves to its
empty/null/no-op result without raising, but when the open request fails
the awaited re-init *rejects* and that rejection propagates out of every
Tier B method.  A failing Tier A localStorage write is silently dropped
(`getChat`/`saveChat`/`addChatMessage` are total by type and never
raise).  A request failure on an *open* database likewise propagates —
see the companion counterexample theorem. -/
theorem storage_unavailable_degrades (envI : IdbEnv) (envL : LsEnv)
    (s : StorageState) (id title notebookId : String)
    (description : Option String) (file : ProcessedFile) (nb : NotebookData)
    (msgs : List ChatMessage) (t1 t2 tNow : Nat)
    (hdb : s.dbAvailable = false) :
    (envI.init = InitOutcome.unavailable →
      getNotebook envI s id = Except.ok (none, s) ∧
      getAllNotebooks envI s = Except.ok ([], s) ∧
      createNotebook envI s id title description t1 t2 =
        Except.ok (mkNotebook id title description t1 t2, s) ∧
      updateNotebook envI s nb tNow = Except.ok s ∧
      deleteNotebook envI s id = Except.ok s ∧
      saveFile envI s file notebookId = Except.ok s ∧
      getFile envI s id = Except.ok (none, s) ∧
      getFilesByNotebook envI s notebookId = Except.ok ([], s)) ∧
    (∀ e, envI.init = InitOutcome.openFails e →
      getNotebook envI s id = Except.error e ∧
      getAllNotebooks envI s = Except.error e ∧
      createNotebook envI s id title description t1 t2 = Except.error e ∧
      updateNotebook envI s nb tNow = Except.error e ∧
      deleteNotebook envI s id = Except.error e ∧
      saveFile envI s file notebookId = Except.error e ∧
      getFile envI s id = Except.error e ∧
      getFilesByNotebook envI s notebookId = Except.error e) ∧
    (envL.setThrows = true → saveChat envL s notebookId msgs = s) := by
  refine ⟨fun hinit => ?_, fun e hinit => ?_, fun hset => by simp [saveChat, hset]⟩ <;>
    exact ⟨by simp [getNotebook, dbAfterInit, hdb, hinit],
      by simp [getAllNotebooks, dbAfterInit, hdb, hinit],
      by simp [createNotebook, dbAfterInit, hdb, hinit],
      by simp [updateNotebook, dbAfterInit, hdb, hinit],
      by simp [deleteNotebook, dbAfterInit, hdb, hinit],
      by simp [saveFile, dbAfterInit, hdb, hinit],
      by simp [getFile, dbAfterInit, hdb, hinit],
      by simp [getFilesByNotebook, dbAfterInit, hdb, hinit]⟩

/-- A store whose IndexedDB database is not open. -/
def unavailState : StorageState :=
  { dbAvailable := false, notebooks := [], files := [], chatsSlot := none,
    settingsSlot := none }

/-- An environment where `window.indexedDB` is absent: re-init resolves
with the db still null. -/
def idbAbsent : IdbEnv :=
  { init := InitOutcome.unavailable, reqFails := false, errMsg := "err" }

/-- An environment where the IndexedDB open request fails: re-init
rejects with the open error. -/
def idbOpenFail : IdbEnv :=
  { init := InitOutcome.openFails "OpenError", reqFails := false, errMsg := "err" }

/-- Witness for the amended C6 theorem: with IndexedDB absent the
operations degrade to empty/null/no-op results, while a failing open
request makes the same read reject with the open error; a failing
localStorage write is dropped. -/
theorem storage_unavailable_degrades_witness :
    getNotebook idbAbsent unavailState "nb_1" = Except.ok (none, unavailState) ∧
    getAllNotebooks idbAbsent unavailState = Except.ok ([], unavailState) ∧
    createNotebook idbAbsent unavailState "nb_1" "T" none 1 2 =
      Except.ok (mkNotebook "nb_1" "T" none 1 2, unavailState) ∧
    getNotebook idbOpenFail unavailState "nb_1" = Except.error "OpenError" ∧
    saveChat { getThrows := false, setThrows := true } unavailState "nb_1" [msgOne] =
      unavailState := by
  have h1 := storage_unavailable_degrades idbAbsent
    { getThrows := false, setThrows := true } unavailState "nb_1" "T" "nb_1" none
    note50 nbOne [msgOne] 1 2 3 rfl
  have h2 := storage_unavailable_degrades idbOpenFail
    { getThrows := false, setThrows := true } unavailState "nb_1" "T" "nb_1" none
    note50 nbOne [msgOne] 1 2 3 rfl
  have ha := h1.1 rfl
  have hb := h2.2.1 "OpenError" rfl
  exact ⟨ha.1, ha.2.1, ha.2.2.1, hb.1, h1.2.2 rfl⟩

/-- Counterexample to C6 as stated: with the database open, a quota
failure on the IndexedDB put request makes `createNotebook` reject — this
storage failure escapes the Persistence Store boundary instead of
resolving to a no-op. -/
theorem createNotebook_quota_error_propagates :
    createNotebook
      { init := InitOutcome.unavailable, reqFails := true,
        errMsg := "QuotaExceededError" } popState
      "nb_9" "T" none 30 30 = Except.error "QuotaExceededError" := rfl

/-- C7: for every uploaded file matching none of the supported formats
(pdf, docx, hwpx, plain text/markdown — by declared type or extension,
case-insensitively), `processFile` returns a failure carrying the
offending file name in its error message and no extracted content at all,
and such a result contributes nothing to the successful-file list of the
notebook commit, whatever the rest of the batch is. -/
theorem processFile_unsupported (env : ExtractEnv) (file : JsFile) (id : String)
    (hpdf : isPdfMatch (jsToLower file.type) (jsToLower file.name) = false)
    (hdocx : isDocxMatch (jsToLower file.type) (jsToLower file.name) = false)
    (hhwpx : isHwpxMatch (jsToLower file.name) = false)
    (htext : isTextMatch (jsToLower file.type) (jsToLower file.name) = false) :
    processFile env file id =
      { success := false, file := none,
        error := some ("지원되지 않는 파일 형식입니다: " ++ file.name) } ∧
    strContains ("지원되지 않는 파일 형식입니다: " ++ file.name) file.name = true ∧
    ∀ before after : List FileProcessingResult,
      successfulFiles (before ++ processFile env file id :: after) =
        successfulFiles before ++ successfulFiles after := by
  have hres : processFile env file id =
      { success := false, file := none,
        error := some ("지원되지 않는 파일 형식입니다: " ++ file.name) } := by
    simp [processFile, hpdf, hdocx, hhwpx, htext]
  refine ⟨hres, ?_, ?_⟩
  · unfold strContains
    rw [String.data_append]
    exact containsSublist_append_self _ _
  · intro before after
    simp [successfulFiles, hres]

/-- An extraction environment for the C7 witness (its outcomes are never
consulted on the unsupported path). -/
def extractOk : ExtractEnv :=
  { pdfArrayBuffer := Except.ok (), docx := Except.ok "", text := Except.ok "" }

/-- The unsupported upload of the §8 scenario. -/
def xyzFile : JsFile := { name := "data.xyz", type := "", size := 3, lastModified := 0 }

/-- Witness for C7: uploading `data.xyz` fails with the offending name in
the message, yields no content, and is excluded from the commit. -/
theorem processFile_unsupported_witness :
    processFile extractOk xyzFile "file_9" =
      { success := false, file := none,
        error := some ("지원되지 않는 파일 형식입니다: " ++ xyzFile.name) } ∧
    strContains ("지원되지 않는 파일 형식입니다: " ++ xyzFile.name) xyzFile.name = true ∧
    successfulFiles [processFile extractOk xyzFile "file_9"] = [] := by
  obtain ⟨h1, h2, h3⟩ := processFile_unsupported extractOk xyzFile "file_9"
    (by decide) (by decide) (by decide) (by decide)
  exact ⟨h1, h2, by simpa using h3 [] []⟩

/-- C10: `addChatMessage` for notebook `n` (and likewise `saveChat`)
modifies only the chat list stored under key `n`: the chat list read for
any other notebook `m`, the Tier B notebook and file stores, and the
settings blob are all unchanged — in every localStorage environment,
including failing ones. -/
theorem addChatMessage_frame (env : LsEnv) (s : StorageState)
    (n m c id : String) (u : Bool) (r : Option (List String)) (t : Nat)
    (msgs : List ChatMessage) (hm : (n == m) = false) :
    (getChat env (addChatMessage env s n c u r id t).2 m).1 = (getChat env s m).1 ∧
    (addChatMessage env s n c u r id t).2.notebooks = s.notebooks ∧
    (addChatMessage env s n c u r id t).2.files = s.files ∧
    (addChatMessage env s n c u r id t).2.settingsSlot = s.settingsSlot ∧
    (getChat env (saveChat env s n msgs) m).1 = (getChat env s m).1 ∧
    (saveChat env s n msgs).notebooks = s.notebooks ∧
    (saveChat env s n msgs).files = s.files ∧
    (saveChat env s n msgs).settingsSlot = s.settingsSlot := by
  cases hg : env.getThrows <;> cases hs : env.setThrows <;>
    simp [addChatMessage, saveChat, getChat, hg, hs, assocGet_assocSet_ne, hm]

/-- Witness for C10: adding a message to `nb_1` in the populated store
leaves the chat of `nb_2`, both Tier B stores and the settings unchanged. -/
theorem addChatMessage_frame_witness :
    (getChat lsOk (addChatMessage lsOk popState "nb_1" "hey" true none "msg_9" 40).2
      "nb_2").1 = (getChat lsOk popState "nb_2").1 ∧
    (addChatMessage lsOk popState "nb_1" "hey" true none "msg_9" 40).2.notebooks =
      popState.notebooks ∧
    (addChatMessage lsOk popState "nb_1" "hey" true none "msg_9" 40).2.files =
      popState.files ∧
    (addChatMessage lsOk popState "nb_1" "hey" true none "msg_9" 40).2.settingsSlot =
      popState.settingsSlot ∧
    (getChat lsOk (saveChat lsOk popState "nb_1" [msgOne]) "nb_2").1 =
      (getChat lsOk popState "nb_2").1 ∧
    (saveChat lsOk popState "nb_1" [msgOne]).notebooks = popState.notebooks ∧
    (saveChat lsOk popState "nb_1" [msgOne]).files = popState.files ∧
    (saveChat lsOk popState "nb_1" [msgOne]).settingsSlot = popState.settingsSlot :=
  addChatMessage_frame lsOk popState "nb_1" "nb_2" "hey" "msg_9" true none 40
    [msgOne] (by decide)

end NotebookApp
